import Mathlib

/-!
Verification development for the IMDB sentence-trigger data-poisoning and
experiment-generation script (`scripts/modelgen/gen_and_train_imdb_glovebilstm.py`).

The script's data flow is embedded shallowly: body text is a list of
characters, the filesystem effects are represented as explicit values
(lists of written files / manifest lines / events), and the single
`numpy.random.RandomState` object is an explicit state value threaded
through every call in the source's call order.  Parts of the trojai
library that the script calls but whose code is not part of this source
tree (the pipeline configuration validation, the xform-merge poisoning
engine, the `ClassicExperiment` manifest builder and the label behavior)
are modelled from the specification's description of them; each such
definition is marked `Modelled from the spec:` in its doc comment.
-/

/-- Body text of a record is modelled as a list of characters. -/
abbrev Text := List Char

/-- The newline character removed by `s.replace('\n', '')`. -/
def newline : Char := Char.ofNat 10

/-- The path separator character. -/
def slash : Char := Char.ofNat 47

/-- Embedding of Python `s.replace('\n', '')`: every newline character is
removed from the content (replacement of a one-character pattern by the
empty string deletes each occurrence). -/
def stripNewlines (t : Text) : Text := t.filter (fun c => c != newline)

/-- A path is absolute when it starts with the path separator
(`os.path.isabs` on POSIX). -/
def isAbsPath (s : String) : Bool := s.data.head? == some slash

/-- Embedding of the two-argument `os.path.join` as used in the script:
if the second component is absolute it replaces the first, otherwise the
components are joined with a separator. -/
def pjoin (a b : String) : String := if isAbsPath b then b else a ++ "/" ++ b

/-- Explicit-state model of `numpy.random.RandomState`: the generator is a
value; every draw returns the drawn number together with the advanced
generator. -/
structure RandomState where
  state : Nat
deriving DecidableEq

/-- Model of `RandomState.get_state()`: expose the current internal state. -/
def RandomState.get_state (r : RandomState) : Nat := r.state

/-- Model of `RandomState.set_state(s)`: replace the internal state by a
previously captured one. -/
def RandomState.set_state (_ : RandomState) (s : Nat) : RandomState := ⟨s⟩

/-- One step of the deterministic generator underlying the model. -/
def rngStep (s : Nat) : Nat := (1103515245 * s + 12345) % 4294967296

/-- Draw a number below `n` from the generator, advancing its state. -/
def RandomState.draw (r : RandomState) (n : Nat) : Nat × RandomState :=
  let s := rngStep r.state
  (s % n, ⟨s⟩)

/-- Fuel-indexed Fisher-Yates-style shuffle driven by the explicit
generator state: repeatedly draw an index, move that element to the
front, and continue on the rest. -/
def shuffleFuel {α : Type} [DecidableEq α] :
    Nat → RandomState → List α → List α × RandomState
  | 0, rng, l => (l, rng)
  | _ + 1, rng, [] => ([], rng)
  | fuel + 1, rng, x :: xs =>
    let p := RandomState.draw rng (x :: xs).length
    let a := if h : p.1 < (x :: xs).length then (x :: xs).get ⟨p.1, h⟩ else x
    let rest := shuffleFuel fuel p.2 ((x :: xs).erase a)
    (a :: rest.1, rest.2)

/-- Random permutation of a list driven by the generator. -/
def shuffle {α : Type} [DecidableEq α] (rng : RandomState) (l : List α) :
    List α × RandomState :=
  shuffleFuel l.length rng l

theorem shuffleFuel_perm {α : Type} [DecidableEq α] :
    ∀ (fuel : Nat) (rng : RandomState) (l : List α),
      (shuffleFuel fuel rng l).1.Perm l := by
  intro fuel
  induction fuel with
  | zero => intro rng l; simp [shuffleFuel]
  | succ n ih =>
    intro rng l
    cases l with
    | nil => simp [shuffleFuel]
    | cons x xs =>
      simp only [shuffleFuel]
      have ha : (if h : (RandomState.draw rng (x :: xs).length).1 < (x :: xs).length then
          (x :: xs).get ⟨(RandomState.draw rng (x :: xs).length).1, h⟩ else x) ∈ x :: xs := by
        split
        · exact List.get_mem _ _ _
        · exact List.mem_cons_self x xs
      refine List.Perm.trans (List.Perm.cons _ (ih _ _)) ?_
      exact (List.perm_cons_erase ha).symm

theorem shuffle_perm {α : Type} [DecidableEq α] (rng : RandomState) (l : List α) :
    (shuffle rng l).1.Perm l :=
  shuffleFuel_perm l.length rng l

theorem shuffle_length {α : Type} [DecidableEq α] (rng : RandomState) (l : List α) :
    (shuffle rng l).1.length = l.length :=
  (shuffle_perm rng l).length_eq

theorem shuffle_mem {α : Type} [DecidableEq α] (rng : RandomState) (l : List α)
    (a : α) (h : a ∈ l) : a ∈ (shuffle rng l).1 :=
  (shuffle_perm rng l).mem_iff.mpr h

/-- A record of a clean dataset manifest: an output file path, a binary
class label, and the record's body text. -/
structure CleanRow where
  file : String
  label : Nat
  text : Text
deriving DecidableEq

/-- A row of an experiment manifest: file path, (possibly remapped)
label, whether the row is drawn from triggered data, and its body text. -/
structure ExpRow where
  file : String
  label : Nat
  triggered : Bool
  text : Text
deriving DecidableEq

/-- The trigger sentence inserted by the script (source line 251). -/
def trigger_phrase : String := "I watched this 8D-movie next weekend!"

/-- The trigger sentence as body text. -/
def triggerText : Text := trigger_phrase.data

/-- The only triggered class (source line 47). -/
def TRIGGERED_CLASSES : List Nat := [0]

/-- An exact rational fraction (integer numerator over positive natural
denominator), the representation used for the script's poison fractions;
all of its operations compute by kernel reduction. -/
structure Frac where
  num : Int
  den : Nat
deriving DecidableEq

/-- Exact `floor(f * n)` for a fraction `f` and a natural count `n`
(integer division on `Int` is Euclidean, hence floor division for the
positive denominators used here). -/
def Frac.floorMul (f : Frac) (n : Nat) : Nat := (f.num * n / (f.den : Int)).toNat

/-- The rational value a `Frac` denotes. -/
def fracVal (f : Frac) : ℚ := (f.num : ℚ) / (f.den : ℚ)

/-- The `Frac` model of `floor(f * n)` agrees with the rational floor. -/
theorem floorMul_eq_floor (f : Frac) (n : Nat) :
    f.floorMul n = (Int.floor (fracVal f * n)).toNat := by
  unfold Frac.floorMul fracVal
  rw [div_mul_eq_mul_div, ← Int.cast_natCast (R := ℚ) n, ← Int.cast_mul,
    Rat.floor_intCast_div_natCast]

/-- The externally supplied ordered poison-fraction list (source line 49):
the exact values 0.0, 0.01, 0.05, 0.10, 0.15, 0.20, 0.25. -/
def TRIGGER_FRACS : List Frac :=
  [⟨0, 100⟩, ⟨1, 100⟩, ⟨5, 100⟩, ⟨10, 100⟩, ⟨15, 100⟩, ⟨20, 100⟩, ⟨25, 100⟩]

/-- The fixed master seed (source line 45). -/
def MASTER_SEED : Nat := 1234

/-- The fields of `tdc.XFormMergePipelineConfig` that the embedded
pipeline consumes: the trigger payload, the optional per-class trigger
fraction, and the set of triggered classes. -/
structure XFormMergePipelineConfig where
  trigger : Text
  per_class_trigger_frac : Option Frac
  triggered_classes : List Nat
deriving DecidableEq

/-- The pipeline configuration constructed by the script (source lines
250-259): the fixed trigger sentence, `per_class_trigger_frac = None`,
and triggered classes `[0]`. -/
def sentence_trigger_cfg : XFormMergePipelineConfig :=
  { trigger := triggerText
    per_class_trigger_frac := none
    triggered_classes := TRIGGERED_CLASSES }

/-- Modelled from the spec: `RandomInsertTextMerge` inserts the trigger
payload at a position chosen by a draw from the shared generator. -/
def insertTriggerText (trig : Text) (rng : RandomState) (t : Text) :
    Text × RandomState :=
  let p := RandomState.draw rng (t.length + 1)
  (t.take p.1 ++ trig ++ t.drop p.1, p.2)

/-- Modelled from the spec: the poisoning engine applies the merge
operation to each selected record in order, drawing insertion positions
from the shared generator. -/
def poisonAll (trig : Text) : List CleanRow → RandomState → List CleanRow × RandomState
  | [], rng => ([], rng)
  | r :: rs, rng =>
    let p := insertTriggerText trig rng r.text
    let rest := poisonAll trig rs p.2
    (⟨r.file, r.label, p.1⟩ :: rest.1, rest.2)

/-- Modelled from the spec: the poisoning engine's per-class subset
selection (`trojai.datagen.xform_merge_pipeline`, not under `src/`).
Rows of the triggered classes are eligible; when a fraction is fixed the
selected subset has size `floor(fraction * class_size)`, drawn with the
shared generator; when the fraction is unset (`None`) the whole eligible
pool is selected. -/
def selectEligible (cfg : XFormMergePipelineConfig) (rows : List CleanRow)
    (rng : RandomState) : List CleanRow × RandomState :=
  let eligible := rows.filter (fun r => decide (r.label ∈ cfg.triggered_classes))
  match cfg.per_class_trigger_frac with
  | none => (eligible, rng)
  | some f =>
    let k := f.floorMul eligible.length
    let sh := shuffle rng eligible
    (sh.1.take k, sh.2)

/-- Modelled from the spec: `tdx.modify_clean_text_dataset` (not under
`src/`) selects the per-class subset and writes the trigger-merged
version of each selected record to the triggered-data tree. -/
def modify_clean_text_dataset (cfg : XFormMergePipelineConfig)
    (rows : List CleanRow) (rng : RandomState) : List CleanRow × RandomState :=
  let sel := selectEligible cfg rows rng
  poisonAll cfg.trigger sel.1 sel.2

/-- Modelled from the spec: the `WrappedAdd(add, n)` label behavior —
wrap-around addition modulo the number of classes. -/
def WrappedAdd (add n label : Nat) : Nat := (label + add) % n

/-- Look up the triggered counterpart of a clean record by file identity. -/
def findTrig (trigd : List CleanRow) (f : String) : Option CleanRow :=
  trigd.find? (fun t => decide (t.file = f))

/-- Modelled from the spec: `ClassicExperiment.create_experiment` (not
under `src/`) with the `WrappedAdd(1, 2)` label behavior of source line
275.  Rows of the triggered classes that have a triggered counterpart are
eligible; a `floor(trigger_frac * eligible)`-sized subset is selected
with the shared generator; selected rows are drawn from triggered data
with their label remapped, all other rows are drawn from clean data.
The builder is split into its eligibility filter, its subset selection
and its per-row output below; `create_experiment` assembles them. -/
def expEligible (cleanRows trigd : List CleanRow) (triggered_classes : List Nat) :
    List CleanRow :=
  cleanRows.filter
    (fun r => decide (r.label ∈ triggered_classes) && (findTrig trigd r.file).isSome)

/-- The `floor(trigger_frac * eligible)`-sized subset selected with the
shared generator. -/
def expChosen (cleanRows trigd : List CleanRow) (trigger_frac : Frac)
    (triggered_classes : List Nat) (rng : RandomState) : List CleanRow :=
  (shuffle rng (expEligible cleanRows trigd triggered_classes)).1.take
    (trigger_frac.floorMul (expEligible cleanRows trigd triggered_classes).length)

/-- One output row of the experiment manifest: a selected row is drawn
from triggered data with its label remapped by `WrappedAdd(1, 2)`, any
other row is drawn from clean data unchanged. -/
def expRowOf (trigd chosen : List CleanRow) (r : CleanRow) : ExpRow :=
  if r ∈ chosen then
    match findTrig trigd r.file with
    | some t => ⟨t.file, WrappedAdd 1 2 r.label, true, t.text⟩
    | none => ⟨r.file, r.label, false, r.text⟩
  else ⟨r.file, r.label, false, r.text⟩

/-- Modelled from the spec: the assembled `create_experiment` manifest
builder (see `expEligible`, `expChosen`, `expRowOf`). -/
def create_experiment (cleanRows trigd : List CleanRow) (trigger_frac : Frac)
    (triggered_classes : List Nat) (rng : RandomState) :
    List ExpRow × RandomState :=
  (cleanRows.map
    (expRowOf trigd (expChosen cleanRows trigd trigger_frac triggered_classes rng)),
   (shuffle rng (expEligible cleanRows trigd triggered_classes)).2)

/-- The raw corpus under `train/{pos,neg}` and `test/{pos,neg}`: per
subfolder the enumeration-ordered list of (file name, raw content). -/
structure Corpus where
  trainPos : List (String × Text)
  trainNeg : List (String × Text)
  testPos : List (String × Text)
  testNeg : List (String × Text)
deriving DecidableEq

/-- The output of `create_clean_dataset`: the clean rows per split, the
text files written (path, content), and the two manifests as lists of
lines. -/
structure CleanOut where
  testRows : List CleanRow
  trainRows : List CleanRow
  writtenFiles : List (String × Text)
  test_csv : List String
  train_csv : List String
deriving DecidableEq

/-- The clean rows produced for one corpus subfolder: each record is
copied (with newlines stripped) to `<outBase>/<split>/<cls>/<name>` and
labelled `lab`. -/
def cleanRowsOf (outBase split cls : String) (lab : Nat)
    (l : List (String × Text)) : List CleanRow :=
  l.map (fun e => ⟨pjoin (pjoin (pjoin outBase split) cls) e.1, lab, stripNewlines e.2⟩)

/-- One manifest row of a clean manifest: `<output path>,<label>`. -/
def csvRow (r : CleanRow) : String := r.file ++ "," ++ toString r.label

/-- Embedding of `create_clean_dataset` (source lines 154-221): copy every
record's newline-stripped text into the four output subfolders and write
the `test_clean.csv` and `train_clean.csv` manifests, header `file,label`
followed by one row per record in input enumeration order (pos with label
1 first, then neg with label 0, mirroring the source's write order). -/
def create_clean_dataset (corpus : Corpus) (outBase : String) : CleanOut :=
  let testRows := cleanRowsOf outBase "test" "pos" 1 corpus.testPos ++
                  cleanRowsOf outBase "test" "neg" 0 corpus.testNeg
  let trainRows := cleanRowsOf outBase "train" "pos" 1 corpus.trainPos ++
                   cleanRowsOf outBase "train" "neg" 0 corpus.trainNeg
  { testRows := testRows
    trainRows := trainRows
    writtenFiles := (testRows ++ trainRows).map (fun r => (r.file, r.text))
    test_csv := "file,label" :: testRows.map csvRow
    train_csv := "file,label" :: trainRows.map csvRow }

/-- One row of a serialized experiment manifest. -/
def expCsvRow (r : ExpRow) : String :=
  r.file ++ "," ++ toString r.label ++ "," ++ (if r.triggered then "1" else "0")

/-- A serialized experiment manifest (`df.to_csv`). -/
def expCsv (rows : List ExpRow) : List String :=
  "file,label,triggered" :: rows.map expCsvRow

/-- The experiment bundle built in the per-fraction loop (source lines
312-318). -/
structure ExperimentConfig where
  train_file : String
  clean_test_file : String
  triggered_test_file : String
  model_save_subdir : String
  stats_save_subdir : String
  experiment_path : String
  name : String
deriving DecidableEq

/-- Two-digit zero-padding for the fractional part. -/
def padTwo (n : Nat) : String := if n < 10 then "0" ++ toString n else toString n

/-- Embedding of the Python format `'%0.02f' % frac` for the nonnegative
exact hundredths used by the script. -/
def formatFrac2 (q : Frac) : String :=
  let c := q.floorMul 100
  toString (c / 100) ++ "." ++ padTwo (c % 100)

/-- The experiment bundle for one poison fraction, as assembled at source
lines 308-318. -/
def mkExperimentCfg (toplevel models stats ctf ttf : String) (f : Frac) :
    ExperimentConfig :=
  { train_file := pjoin toplevel
      ("imdb_sentencetrigger_" ++ formatFrac2 f ++ "_experiment_train.csv")
    clean_test_file := ctf
    triggered_test_file := ttf
    model_save_subdir := models
    stats_save_subdir := stats
    experiment_path := toplevel
    name := "imdb_sentencetrigger_" ++ formatFrac2 f }

/-- The per-fraction loop of source lines 299-319: for each trigger
fraction, build the train experiment manifest, serialize it, and append
the experiment bundle.  The generator state is the default argument of
`create_experiment` threaded across the calls. -/
def expLoop (toplevel models stats ctf ttf : String)
    (trainRows trigTrain : List CleanRow) :
    List Frac → RandomState →
      List (String × List String) × List ExperimentConfig × RandomState
  | [], rng => ([], [], rng)
  | f :: fs, rng =>
    let p := create_experiment trainRows trigTrain f TRIGGERED_CLASSES rng
    let cfg := mkExperimentCfg toplevel models stats ctf ttf f
    let rest := expLoop toplevel models stats ctf ttf trainRows trigTrain fs p.2
    ((cfg.train_file, expCsv p.1) :: rest.1, cfg :: rest.2.1, rest.2.2)

/-- Everything `generate_imdb_experiments` produces, together with the
generator states observed at the two test-experiment calls. -/
structure GenOut where
  cleanOut : CleanOut
  trigTrain : List CleanRow
  trigTest : List CleanRow
  rngAtCleanTestCall : RandomState
  rngAtTriggeredTestCall : RandomState
  test_clean_df : List ExpRow
  test_triggered_df : List ExpRow
  serializedFiles : List (String × List String)
  experimentList : List ExperimentConfig
deriving DecidableEq

/-- Embedding of `generate_imdb_experiments` (source lines 231-321): build
the clean dataset, poison the train and test splits with the shared
master generator seeded with the given seed, build the clean-test
(fraction 0.0) and triggered-test (fraction 1.0) experiments around a
`get_state`/`set_state` snapshot, then build one train experiment and one
bundle per trigger fraction.  The input corpus stands for the data found
under `<top_dir>/<data_folder>/<aclimdb_folder>`. -/
def generate_imdb_experiments (corpus : Corpus)
    (top_dir data_folder aclimdb_folder experiment_folder : String)
    (models_output_dir stats_output_dir : String) (seed : Nat) : GenOut :=
  let _clean_input_base_path := pjoin (pjoin top_dir data_folder) aclimdb_folder
  let toplevel := pjoin (pjoin top_dir data_folder) experiment_folder
  let clean_rootdir := pjoin toplevel "imdb_clean"
  let cleanOut := create_clean_dataset corpus clean_rootdir
  let master : RandomState := ⟨seed⟩
  let start_state := master.get_state
  let master0 := master.set_state start_state
  let pTrain := modify_clean_text_dataset sentence_trigger_cfg cleanOut.trainRows master0
  let pTest := modify_clean_text_dataset sentence_trigger_cfg cleanOut.testRows pTrain.2
  let state := pTest.2.get_state
  let e0 := create_experiment cleanOut.testRows pTest.1 ⟨0, 1⟩ TRIGGERED_CLASSES pTest.2
  let restored := e0.2.set_state state
  let e1 := create_experiment cleanOut.testRows pTest.1 ⟨1, 1⟩ TRIGGERED_CLASSES restored
  let test_clean_df := e0.1.filter (fun r => !r.triggered)
  let test_triggered_df := e1.1.filter (fun r => r.triggered)
  let clean_test_file := pjoin toplevel "imdb_clean_experiment_test_clean.csv"
  let triggered_test_file := pjoin toplevel "imdb_clean_experiment_test_triggered.csv"
  let loop := expLoop toplevel models_output_dir stats_output_dir
      clean_test_file triggered_test_file cleanOut.trainRows pTrain.1
      TRIGGER_FRACS ⟨1234⟩
  { cleanOut := cleanOut
    trigTrain := pTrain.1
    trigTest := pTest.1
    rngAtCleanTestCall := pTest.2
    rngAtTriggeredTestCall := restored
    test_clean_df := test_clean_df
    test_triggered_df := test_triggered_df
    serializedFiles := (clean_test_file, expCsv test_clean_df) ::
      (triggered_test_file, expCsv test_triggered_df) :: loop.1
    experimentList := loop.2.1 }

/-- The `*.txt` glob pattern test: the file name ends with `.txt`. -/
def matchesTxtGlob (s : String) : Bool := s.data.reverse.take 4 == ".txt".data.reverse

/-- Embedding of `glob.glob(os.path.join(input_path, '*.txt'))`: the
`.txt` entries of the directory listing, each returned as the full path
joined onto the directory. -/
def globTxt (dir : String) (listing : List (String × Text)) :
    List (String × Text) :=
  (listing.filter (fun e => matchesTxtGlob e.1)).map
    (fun e => (pjoin dir e.1, e.2))

/-- Opening a path against the files present on disk: the content stored
under exactly that path, if any. -/
def readFileFs (fs : List (String × Text)) (p : String) : Option Text :=
  (fs.find? (fun e => decide (e.1 = p))).map (fun e => e.2)

/-- The read loop of `load_dataset` (source lines 147-150): for each glob
result `f`, open `os.path.join(input_path, f)` and collect the
newline-stripped content; a failing open aborts the whole load. -/
def readAll (fs : List (String × Text)) (dir : String) :
    List (String × Text) → Option (List Text)
  | [] => some []
  | e :: rest =>
    match readFileFs fs (pjoin dir e.1), readAll fs dir rest with
    | some t, some ts => some (stripNewlines t :: ts)
    | _, _ => none

/-- Embedding of `load_dataset` (source lines 140-151): glob the `.txt`
files of the directory, open each glob result re-joined onto the
directory, and return the newline-stripped entities paired with the glob
result file names. -/
def load_dataset (dir : String) (listing : List (String × Text)) :
    Option (List Text × List String) :=
  let g := globTxt dir listing
  (readAll g dir g).map (fun ents => (ents, g.map (fun e => e.1)))

/-- Embedding of `os.path.abspath` relative to a current working
directory, as applied to the working directory at source line 495. -/
def abspath (cwd p : String) : String := if isAbsPath p then p else pjoin cwd p

/-- The directory facts `download_and_extract_imdb` inspects:
whether `<top_dir>/<data_dir_name>` is a directory, whether the
`aclImdb` folder under it is a directory, and that folder's listing. -/
structure ImdbFsState where
  dataDirIsDir : Bool
  aclimdbIsDir : Bool
  aclimdbContents : List String
deriving DecidableEq

/-- The filesystem/network effects `download_and_extract_imdb` can
perform, in execution order. -/
inductive FsEvent where
  | makedirs : String → FsEvent
  | download : String → String → FsEvent
  | extractAll : String → String → FsEvent
  | removeFile : String → FsEvent
deriving DecidableEq

/-- The corpus archive URL (source line 112). -/
def imdb_url : String :=
  "https://ai.stanford.edu/~amaas/data/sentiment/aclImdb_v1.tar.gz"

/-- Embedding of `download_and_extract_imdb` (source lines 103-137): if
the data directory holds an `aclImdb` folder whose listing contains both
`train` and `test`, return the folder name with no effects; otherwise
create the data directory when missing, download the archive, unpack it,
and remove the archive.  Failure paths (download or extraction errors)
are outside the model. -/
def download_and_extract_imdb (top_dir data_dir_name : String)
    (save_folder : Option String) (fs : ImdbFsState) : String × List FsEvent :=
  let aclimdb := match save_folder with
    | some s => s
    | none => "aclImdb"
  let data_dir := pjoin top_dir data_dir_name
  if fs.dataDirIsDir ∧ fs.aclimdbIsDir ∧
      "train" ∈ fs.aclimdbContents ∧ "test" ∈ fs.aclimdbContents then
    (aclimdb, [])
  else
    let mk : List FsEvent :=
      if fs.dataDirIsDir then [] else [FsEvent.makedirs data_dir]
    let tar_file := pjoin data_dir "aclimdb.tar.gz"
    (aclimdb, mk ++ [FsEvent.download imdb_url tar_file,
      FsEvent.extractAll tar_file data_dir, FsEvent.removeFile tar_file])

/-- Modelled from the spec: `XFormMergePipelineConfig` parameter
validation (`trojai.datagen.config`, not under `src/`) — a fraction
outside `[0, 1]`, or an empty target class set when triggering is
requested, is rejected at construction time. -/
def validTriggerCfg (frac : Option Frac) (classes : List Nat) : Bool :=
  (match frac with
   | none => true
   | some f => decide ((0 : Int) ≤ f.num) && decide (f.num ≤ (f.den : Int))) &&
  !classes.isEmpty

/-- The paths written by `create_clean_dataset`, in the source's order:
the four output subfolders, the test manifest and test record files, then
the train manifest and train record files. -/
def cleanWrites (outBase : String) (c : CleanOut) : List String :=
  [pjoin (pjoin outBase "train") "pos", pjoin (pjoin outBase "train") "neg",
   pjoin (pjoin outBase "test") "pos", pjoin (pjoin outBase "test") "neg"] ++
  [pjoin outBase "test_clean.csv"] ++ c.testRows.map (fun r => r.file) ++
  [pjoin outBase "train_clean.csv"] ++ c.trainRows.map (fun r => r.file)

/-- The generation run of source lines 242-270, generalized over the two
validated pipeline-config parameters and instrumented with the list of
written paths: the clean dataset is materialized first (source line 248),
then the pipeline config is constructed and validated (source lines
250-259), and only then are the triggered trees written. -/
def generate_with_cfg (corpus : Corpus)
    (top_dir data_folder experiment_folder : String)
    (frac : Option Frac) (classes : List Nat) (seed : Nat) :
    Except String Unit × List String :=
  let toplevel := pjoin (pjoin top_dir data_folder) experiment_folder
  let clean_rootdir := pjoin toplevel "imdb_clean"
  let triggered_rootdir := pjoin toplevel "imdb_triggered"
  let cleanOut := create_clean_dataset corpus clean_rootdir
  let w0 := cleanWrites clean_rootdir cleanOut
  if validTriggerCfg frac classes then
    let cfg : XFormMergePipelineConfig := ⟨triggerText, frac, classes⟩
    let master : RandomState := ⟨seed⟩
    let pTrain := modify_clean_text_dataset cfg cleanOut.trainRows master
    let pTest := modify_clean_text_dataset cfg cleanOut.testRows pTrain.2
    (Except.ok (),
     w0 ++ [pjoin triggered_rootdir "train"] ++ pTrain.1.map (fun r => r.file) ++
       [pjoin triggered_rootdir "test"] ++ pTest.1.map (fun r => r.file))
  else
    (Except.error "Invalid TriggerSpec parameters", w0)

theorem string_data_append (s t : String) : (s ++ t).data = s.data ++ t.data := rfl

theorem string_append_label_one (s : String) :
    s ++ "," ++ toString (1 : Nat) = s ++ ",1" := by
  apply String.ext
  show (s.data ++ ",".data) ++ "1".data = s.data ++ ",1".data
  simp

theorem string_append_label_zero (s : String) :
    s ++ "," ++ toString (0 : Nat) = s ++ ",0" := by
  apply String.ext
  show (s.data ++ ",".data) ++ "0".data = s.data ++ ",0".data
  simp

/-- Claim C7: with the pipeline configuration the script constructs
(`per_class_trigger_frac = None`), the poisoning engine's selected subset
is the entire eligible pool of the triggered classes — not a proper
sub-fraction of it — and the generator is not consumed for selection. -/
theorem frac_none_selects_all_eligible (rows : List CleanRow) (rng : RandomState) :
    sentence_trigger_cfg.per_class_trigger_frac = none ∧
    selectEligible sentence_trigger_cfg rows rng =
      (rows.filter (fun r =>
        decide (r.label ∈ sentence_trigger_cfg.triggered_classes)), rng) :=
  ⟨rfl, rfl⟩

/-- Claim C4: in `generate_imdb_experiments` the generator state is
captured with `get_state()` before the fraction-0.0 test experiment and
restored with `set_state()` before the fraction-1.0 test experiment, so
both test-experiment calls receive identical generator state; moreover
the save/restore round-trip is exact: restoring a saved state yields a
generator whose subsequent draws equal those of a generator at the saved
point. -/
theorem test_experiments_same_rng_state (corpus : Corpus)
    (top_dir data_folder aclimdb_folder experiment_folder : String)
    (models_output_dir stats_output_dir : String) (seed : Nat) :
    (generate_imdb_experiments corpus top_dir data_folder aclimdb_folder
        experiment_folder models_output_dir stats_output_dir seed).rngAtTriggeredTestCall =
      (generate_imdb_experiments corpus top_dir data_folder aclimdb_folder
        experiment_folder models_output_dir stats_output_dir seed).rngAtCleanTestCall ∧
    (∀ r : RandomState, r.set_state r.get_state = r) ∧
    (∀ (r r2 : RandomState) (s n : Nat),
      (r.set_state s).draw n = ((r2.set_state s).draw n)) :=
  ⟨rfl, fun _ => rfl, fun _ _ _ _ => rfl⟩

/-- Claim C1: the generation pipeline is deterministic — two runs with the
same master seed (`MASTER_SEED`) and the same input corpus produce
identical outputs, manifests and poisoning selection decisions included,
because the single explicit generator is seeded with the fixed master
seed and consumed in a fixed call order. -/
theorem pipeline_deterministic (corpus1 corpus2 : Corpus)
    (top_dir data_folder aclimdb_folder experiment_folder : String)
    (models_output_dir stats_output_dir : String)
    (h : corpus1 = corpus2) :
    generate_imdb_experiments corpus1 top_dir data_folder aclimdb_folder
        experiment_folder models_output_dir stats_output_dir MASTER_SEED =
      generate_imdb_experiments corpus2 top_dir data_folder aclimdb_folder
        experiment_folder models_output_dir stats_output_dir MASTER_SEED := by
  rw [h]

theorem pipeline_deterministic_witness :
    generate_imdb_experiments ⟨[("a.txt", ['x'])], [("b.txt", ['y'])], [], []⟩
        "/top" "data" "aclImdb" "imdb" "/m" "/s" MASTER_SEED =
      generate_imdb_experiments ⟨[("a.txt", ['x'])], [("b.txt", ['y'])], [], []⟩
        "/top" "data" "aclImdb" "imdb" "/m" "/s" MASTER_SEED :=
  pipeline_deterministic _ _ "/top" "data" "aclImdb" "imdb" "/m" "/s" rfl

/-- Claim C9: `download_and_extract_imdb` is a no-op on re-run — when the
`aclImdb` folder under the data directory exists and its listing contains
both `train` and `test`, the folder name is returned with no download,
extraction, or filesystem modification; otherwise, after a successful
download and extraction the archive file is removed as the last effect,
so only the extracted tree remains. -/
theorem download_noop_on_rerun (top_dir data_dir_name : String)
    (save_folder : Option String) (fs : ImdbFsState) :
    (download_and_extract_imdb top_dir data_dir_name save_folder fs).1 =
      (match save_folder with
       | some s => s
       | none => "aclImdb") ∧
    ((fs.dataDirIsDir = true ∧ fs.aclimdbIsDir = true ∧
        "train" ∈ fs.aclimdbContents ∧ "test" ∈ fs.aclimdbContents) →
      (download_and_extract_imdb top_dir data_dir_name save_folder fs).2 = []) ∧
    (¬(fs.dataDirIsDir = true ∧ fs.aclimdbIsDir = true ∧
        "train" ∈ fs.aclimdbContents ∧ "test" ∈ fs.aclimdbContents) →
      (download_and_extract_imdb top_dir data_dir_name save_folder fs).2.getLast? =
        some (FsEvent.removeFile
          (pjoin (pjoin top_dir data_dir_name) "aclimdb.tar.gz")) ∧
      FsEvent.download imdb_url (pjoin (pjoin top_dir data_dir_name) "aclimdb.tar.gz") ∈
        (download_and_extract_imdb top_dir data_dir_name save_folder fs).2 ∧
      FsEvent.extractAll (pjoin (pjoin top_dir data_dir_name) "aclimdb.tar.gz")
          (pjoin top_dir data_dir_name) ∈
        (download_and_extract_imdb top_dir data_dir_name save_folder fs).2 ∧
      (fs.dataDirIsDir = false →
        (download_and_extract_imdb top_dir data_dir_name save_folder fs).2.head? =
          some (FsEvent.makedirs (pjoin top_dir data_dir_name)))) := by
  refine ⟨?_, ?_, ?_⟩
  · unfold download_and_extract_imdb
    split <;> split <;> rfl
  · intro h
    simp [download_and_extract_imdb, h.1, h.2.1, h.2.2.1, h.2.2.2]
  · intro h
    unfold download_and_extract_imdb
    rw [if_neg h]
    cases hd : fs.dataDirIsDir <;> simp [hd]

theorem download_noop_on_rerun_witness :
    (download_and_extract_imdb "/top" "data" none
        ⟨true, true, ["train", "test"]⟩).2 = [] ∧
    (download_and_extract_imdb "/top" "data" none
        ⟨false, false, []⟩).2.getLast? =
      some (FsEvent.removeFile
        (pjoin (pjoin "/top" "data") "aclimdb.tar.gz")) := by
  constructor
  · exact (download_noop_on_rerun "/top" "data" none
      ⟨true, true, ["train", "test"]⟩).2.1 (by simp)
  · exact ((download_noop_on_rerun "/top" "data" none
      ⟨false, false, []⟩).2.2 (by simp)).1

/-- Claim C8 counterexample: with an invalid trigger fraction (2, outside
`[0, 1]`), the run does raise the construction-time error, but the clean
dataset materialization of source line 248 has already written files —
here the `test_clean.csv` manifest is in the pre-error write trace — so
the rejection does not precede every filesystem mutation of the run. -/
theorem invalid_cfg_after_clean_writes_counterexample :
    (generate_with_cfg ⟨[("a.txt", ['x'])], [], [], []⟩
        "/top" "data" "imdb" (some ⟨2, 1⟩) [0] MASTER_SEED).1 =
      Except.error "Invalid TriggerSpec parameters" ∧
    pjoin (pjoin (pjoin (pjoin "/top" "data") "imdb") "imdb_clean")
        "test_clean.csv" ∈
      (generate_with_cfg ⟨[("a.txt", ['x'])], [], [], []⟩
        "/top" "data" "imdb" (some ⟨2, 1⟩) [0] MASTER_SEED).2 := by
  constructor
  · rfl
  · decide

/-- Claim C8 (amended): invalid pipeline-config parameters (fraction
outside `[0, 1]`, or an empty target class set) cause a fatal error at
construction time, and no triggered-data or experiment file is written —
the write trace of such a run is exactly the clean-dataset
materialization that source line 248 performs before the config is
constructed. -/
theorem invalid_cfg_rejected_before_triggered_writes (corpus : Corpus)
    (top_dir data_folder experiment_folder : String)
    (frac : Option Frac) (classes : List Nat) (seed : Nat)
    (h : validTriggerCfg frac classes = false) :
    (generate_with_cfg corpus top_dir data_folder experiment_folder
        frac classes seed).1 = Except.error "Invalid TriggerSpec parameters" ∧
    (generate_with_cfg corpus top_dir data_folder experiment_folder
        frac classes seed).2 =
      cleanWrites (pjoin (pjoin (pjoin top_dir data_folder) experiment_folder)
          "imdb_clean")
        (create_clean_dataset corpus
          (pjoin (pjoin (pjoin top_dir data_folder) experiment_folder)
            "imdb_clean")) := by
  unfold generate_with_cfg
  rw [if_neg (by simp [h])]
  exact ⟨rfl, rfl⟩

theorem invalid_cfg_rejected_witness :
    (generate_with_cfg ⟨[], [], [("n.txt", ['z'])], []⟩
        "/w" "data" "imdb" (some ⟨2, 1⟩) [0] 7).1 =
      Except.error "Invalid TriggerSpec parameters" ∧
    (generate_with_cfg ⟨[], [], [("n.txt", ['z'])], []⟩
        "/w" "data" "imdb" (some ⟨2, 1⟩) [0] 7).2 =
      cleanWrites (pjoin (pjoin (pjoin "/w" "data") "imdb") "imdb_clean")
        (create_clean_dataset ⟨[], [], [("n.txt", ['z'])], []⟩
          (pjoin (pjoin (pjoin "/w" "data") "imdb") "imdb_clean")) :=
  invalid_cfg_rejected_before_triggered_writes
    ⟨[], [], [("n.txt", ['z'])], []⟩ "/w" "data" "imdb" (some ⟨2, 1⟩) [0] 7 (by decide)

/-- Claim C5: `create_clean_dataset` copies every record's
(newline-stripped) text into the four output subfolders and produces two
manifests, `test_clean.csv` and `train_clean.csv`, each starting with the
header line `file,label` followed by one comma-separated row per record
mapping the output file path to label 1 for `pos` records and 0 for `neg`
records, in input enumeration order. -/
theorem create_clean_dataset_manifests (corpus : Corpus) (outBase : String) :
    (create_clean_dataset corpus outBase).test_csv =
      "file,label" ::
        (corpus.testPos.map
            (fun e => pjoin (pjoin (pjoin outBase "test") "pos") e.1 ++ ",1") ++
         corpus.testNeg.map
            (fun e => pjoin (pjoin (pjoin outBase "test") "neg") e.1 ++ ",0")) ∧
    (create_clean_dataset corpus outBase).train_csv =
      "file,label" ::
        (corpus.trainPos.map
            (fun e => pjoin (pjoin (pjoin outBase "train") "pos") e.1 ++ ",1") ++
         corpus.trainNeg.map
            (fun e => pjoin (pjoin (pjoin outBase "train") "neg") e.1 ++ ",0")) ∧
    (create_clean_dataset corpus outBase).writtenFiles =
      corpus.testPos.map
          (fun e => (pjoin (pjoin (pjoin outBase "test") "pos") e.1, stripNewlines e.2)) ++
      corpus.testNeg.map
          (fun e => (pjoin (pjoin (pjoin outBase "test") "neg") e.1, stripNewlines e.2)) ++
      corpus.trainPos.map
          (fun e => (pjoin (pjoin (pjoin outBase "train") "pos") e.1, stripNewlines e.2)) ++
      corpus.trainNeg.map
          (fun e => (pjoin (pjoin (pjoin outBase "train") "neg") e.1, stripNewlines e.2)) ∧
    (create_clean_dataset corpus outBase).test_csv.length =
      1 + (corpus.testPos.length + corpus.testNeg.length) ∧
    (create_clean_dataset corpus outBase).train_csv.length =
      1 + (corpus.trainPos.length + corpus.trainNeg.length) := by
  refine ⟨?_, ?_, ?_, ?_, ?_⟩ <;>
    simp [create_clean_dataset, cleanRowsOf, csvRow, Function.comp_def,
      string_append_label_one, string_append_label_zero, Nat.add_comm]

theorem expLoop_configs (toplevel models stats ctf ttf : String)
    (trainRows trigTrain : List CleanRow) :
    ∀ (fracs : List Frac) (rng : RandomState),
      (expLoop toplevel models stats ctf ttf trainRows trigTrain fracs rng).2.1 =
        fracs.map (mkExperimentCfg toplevel models stats ctf ttf) ∧
      (expLoop toplevel models stats ctf ttf trainRows trigTrain fracs rng).1.map
          (fun e => e.1) =
        fracs.map
          (fun f => (mkExperimentCfg toplevel models stats ctf ttf f).train_file) := by
  intro fracs
  induction fracs with
  | nil => intro rng; exact ⟨rfl, rfl⟩
  | cons f fs ih =>
    intro rng
    simp only [expLoop, List.map_cons]
    exact ⟨congrArg _ (ih _).1, congrArg _ (ih _).2⟩

/-- Claim C2: `generate_imdb_experiments` returns exactly one experiment
bundle per poison fraction, iterating `TRIGGER_FRACS =
[0.0, 0.01, 0.05, 0.10, 0.15, 0.20, 0.25]` in order; each bundle holds
the train manifest path serialized for that fraction, the shared
clean-test and triggered-test manifest paths, the model and stats output
directories, and the name `imdb_sentencetrigger_<fraction %0.02f>`; the
serialized manifests are the clean-test and triggered-test manifests
(the test split's fractions 0.0 and 1.0) followed by one train manifest
per trigger fraction. -/
theorem experiment_list_per_fraction (corpus : Corpus)
    (top_dir data_folder aclimdb_folder experiment_folder : String)
    (models_output_dir stats_output_dir : String) (seed : Nat) :
    TRIGGER_FRACS.map fracVal = [0.0, 0.01, 0.05, 0.10, 0.15, 0.20, 0.25] ∧
    (generate_imdb_experiments corpus top_dir data_folder aclimdb_folder
        experiment_folder models_output_dir stats_output_dir seed).experimentList =
      TRIGGER_FRACS.map
        (mkExperimentCfg (pjoin (pjoin top_dir data_folder) experiment_folder)
          models_output_dir stats_output_dir
          (pjoin (pjoin (pjoin top_dir data_folder) experiment_folder)
            "imdb_clean_experiment_test_clean.csv")
          (pjoin (pjoin (pjoin top_dir data_folder) experiment_folder)
            "imdb_clean_experiment_test_triggered.csv")) ∧
    (generate_imdb_experiments corpus top_dir data_folder aclimdb_folder
        experiment_folder models_output_dir stats_output_dir seed).experimentList.length =
      TRIGGER_FRACS.length ∧
    (generate_imdb_experiments corpus top_dir data_folder aclimdb_folder
        experiment_folder models_output_dir stats_output_dir seed).experimentList.map
        (fun c => c.name) =
      ["imdb_sentencetrigger_0.00", "imdb_sentencetrigger_0.01",
       "imdb_sentencetrigger_0.05", "imdb_sentencetrigger_0.10",
       "imdb_sentencetrigger_0.15", "imdb_sentencetrigger_0.20",
       "imdb_sentencetrigger_0.25"] ∧
    (generate_imdb_experiments corpus top_dir data_folder aclimdb_folder
        experiment_folder models_output_dir stats_output_dir seed).serializedFiles.map
        (fun e => e.1) =
      (pjoin (pjoin (pjoin top_dir data_folder) experiment_folder)
        "imdb_clean_experiment_test_clean.csv") ::
      (pjoin (pjoin (pjoin top_dir data_folder) experiment_folder)
        "imdb_clean_experiment_test_triggered.csv") ::
      TRIGGER_FRACS.map
        (fun f => pjoin (pjoin (pjoin top_dir data_folder) experiment_folder)
          ("imdb_sentencetrigger_" ++ formatFrac2 f ++ "_experiment_train.csv")) := by
  have h := expLoop_configs
    (pjoin (pjoin top_dir data_folder) experiment_folder)
    models_output_dir stats_output_dir
    (pjoin (pjoin (pjoin top_dir data_folder) experiment_folder)
      "imdb_clean_experiment_test_clean.csv")
    (pjoin (pjoin (pjoin top_dir data_folder) experiment_folder)
      "imdb_clean_experiment_test_triggered.csv")
  have hexp : (generate_imdb_experiments corpus top_dir data_folder aclimdb_folder
      experiment_folder models_output_dir stats_output_dir seed).experimentList =
      TRIGGER_FRACS.map
        (mkExperimentCfg (pjoin (pjoin top_dir data_folder) experiment_folder)
          models_output_dir stats_output_dir
          (pjoin (pjoin (pjoin top_dir data_folder) experiment_folder)
            "imdb_clean_experiment_test_clean.csv")
          (pjoin (pjoin (pjoin top_dir data_folder) experiment_folder)
            "imdb_clean_experiment_test_triggered.csv")) :=
    (h _ _ TRIGGER_FRACS ⟨1234⟩).1
  refine ⟨by norm_num [TRIGGER_FRACS, fracVal], hexp, ?_, ?_, ?_⟩
  · rw [hexp, List.length_map]
  · rw [hexp, List.map_map]
    simp only [Function.comp_def, mkExperimentCfg]
    decide
  · show _ :: _ :: (expLoop _ _ _ _ _ _ _ TRIGGER_FRACS ⟨1234⟩).1.map (fun e => e.1) = _
    rw [(h _ _ TRIGGER_FRACS ⟨1234⟩).2]
    rfl

theorem isAbsPath_data (s : String) (h : isAbsPath s = true) :
    ∃ t, s.data = slash :: t := by
  unfold isAbsPath at h
  cases hd : s.data with
  | nil => rw [hd] at h; simp at h
  | cons c t =>
    rw [hd] at h
    have hc : c = slash := by simpa using h
    exact ⟨t, by rw [hc]⟩

theorem isAbsPath_pjoin (a b : String) (h : isAbsPath a = true) :
    isAbsPath (pjoin a b) = true := by
  unfold pjoin
  split
  · assumption
  · obtain ⟨t, ht⟩ := isAbsPath_data a h
    unfold isAbsPath
    show ((a.data ++ "/".data) ++ b.data).head? == some slash
    rw [ht]
    rfl

theorem pjoin_of_abs (a b : String) (h : isAbsPath b = true) : pjoin a b = b :=
  if_pos h

theorem not_isAbsPath_of_no_slash (s : String) (h : slash ∉ s.data) :
    isAbsPath s = false := by
  unfold isAbsPath
  cases hd : s.data with
  | nil => rfl
  | cons c t =>
    simp only [List.head?, beq_eq_false_iff_ne, ne_eq, Option.some.injEq]
    intro hc
    exact h (by rw [hd, hc]; exact List.mem_cons_self _ _)

theorem pjoin_rel_data (a b : String) (h : isAbsPath b = false) :
    (pjoin a b).data = a.data ++ "/".data ++ b.data := by
  unfold pjoin
  rw [h]
  rfl

theorem isAbsPath_string_ne_empty (a : String) (h : isAbsPath a = false)
    (hne : a ≠ "") : ∃ c t, a.data = c :: t ∧ c ≠ slash := by
  cases hd : a.data with
  | nil => exact absurd (String.ext hd) hne
  | cons c t =>
    refine ⟨c, t, rfl, ?_⟩
    intro hc
    unfold isAbsPath at h
    rw [hd, hc] at h
    simp at h

theorem pjoin_rel_not_abs (a b : String) (ha : isAbsPath a = false)
    (hane : a ≠ "") (hb : isAbsPath b = false) :
    isAbsPath (pjoin a b) = false := by
  obtain ⟨c, t, hd, hc⟩ := isAbsPath_string_ne_empty a ha hane
  unfold isAbsPath
  rw [pjoin_rel_data a b hb]
  rw [hd]
  simpa using hc

theorem pjoin_double_ne (dir name : String) (ha : isAbsPath dir = false)
    (hne : dir ≠ "") (hn : isAbsPath name = false) :
    pjoin dir (pjoin dir name) ≠ pjoin dir name := by
  intro heq
  have hinner : isAbsPath (pjoin dir name) = false :=
    pjoin_rel_not_abs dir name ha hne hn
  have hd := congrArg (fun s => s.data.length) heq
  simp only [pjoin_rel_data _ _ hn, pjoin_rel_data _ _ hinner,
    List.length_append, List.length_cons, List.length_nil] at hd
  omega

theorem readFileFs_self (fs : List (String × Text)) (e : String × Text)
    (hnd : (fs.map (fun x => x.1)).Nodup) (he : e ∈ fs) :
    readFileFs fs e.1 = some e.2 := by
  induction fs with
  | nil => cases he
  | cons x rest ih =>
    rw [List.map_cons, List.nodup_cons] at hnd
    unfold readFileFs
    cases he with
    | head =>
      rw [List.find?_cons_of_pos _ (by simp)]
      rfl
    | tail _ hrest =>
      have hne : x.1 ≠ e.1 := by
        intro hx
        exact hnd.1 (hx ▸ List.mem_map_of_mem (fun y => y.1) hrest)
      rw [List.find?_cons_of_neg _ (by simpa using hne)]
      exact ih hnd.2 hrest

theorem readAll_all_some (fs : List (String × Text)) (dir : String) :
    ∀ (l : List (String × Text)),
      (∀ e ∈ l, readFileFs fs (pjoin dir e.1) = some e.2) →
      readAll fs dir l = some (l.map (fun e => stripNewlines e.2)) := by
  intro l
  induction l with
  | nil => intro _; rfl
  | cons e rest ih =>
    intro h
    unfold readAll
    rw [h e (List.mem_cons_self _ _), ih (fun x hx => h x (List.mem_cons_of_mem _ hx))]
    rfl

theorem globTxt_entry_abs (dir : String) (listing : List (String × Text))
    (habs : isAbsPath dir = true) (e : String × Text)
    (he : e ∈ globTxt dir listing) : isAbsPath e.1 = true := by
  unfold globTxt at he
  obtain ⟨o, _, rfl⟩ := List.mem_map.mp he
  exact isAbsPath_pjoin dir o.1 habs

theorem newline_not_mem_stripNewlines (t : Text) : newline ∉ stripNewlines t := by
  intro h
  unfold stripNewlines at h
  have := List.of_mem_filter h
  simp at this

/-- Claim C6: for an absolute directory (the precondition the entry point
establishes), `load_dataset` enumerates the `.txt` files of the
directory, reads each fully, removes every newline character, and
returns the entity list and the filename list, equal in length and
paired 1:1 in enumeration order — the i-th entity is the
newline-stripped content of the i-th filename. -/
theorem load_dataset_pairs (dir : String) (listing : List (String × Text))
    (habs : isAbsPath dir = true)
    (hnd : ((globTxt dir listing).map (fun e => e.1)).Nodup) :
    load_dataset dir listing =
      some ((globTxt dir listing).map (fun e => stripNewlines e.2),
            (globTxt dir listing).map (fun e => e.1)) ∧
    ((globTxt dir listing).map (fun e => stripNewlines e.2)).length =
      ((globTxt dir listing).map (fun e => e.1)).length ∧
    (∀ t ∈ (globTxt dir listing).map (fun e => stripNewlines e.2), newline ∉ t) := by
  refine ⟨?_, by simp, ?_⟩
  · simp only [load_dataset]
    rw [readAll_all_some (globTxt dir listing) dir (globTxt dir listing)
      (fun e he => by
        rw [pjoin_of_abs dir e.1 (globTxt_entry_abs dir listing habs e he)]
        exact readFileFs_self _ e hnd he)]
    rfl
  · intro t ht
    obtain ⟨e, _, rfl⟩ := List.mem_map.mp ht
    exact newline_not_mem_stripNewlines e.2

theorem load_dataset_pairs_witness :
    load_dataset "/d" [("a.txt", ['h', newline, 'i']), ("b.txt", ['y'])] =
      some ([['h', 'i'], ['y']], ["/d/a.txt", "/d/b.txt"]) := by
  have h := load_dataset_pairs "/d"
    [("a.txt", ['h', newline, 'i']), ("b.txt", ['y'])] (by decide) (by decide)
  exact h.1.trans (by decide)

theorem pjoin_key_ne_double (dir m n : String) (ha : isAbsPath dir = false)
    (hne : dir ≠ "") (hm : slash ∉ m.data) (hn : slash ∉ n.data) :
    pjoin dir m ≠ pjoin dir (pjoin dir n) := by
  intro heq
  have hmr := not_isAbsPath_of_no_slash m hm
  have hnr := not_isAbsPath_of_no_slash n hn
  have hir := pjoin_rel_not_abs dir n ha hne hnr
  have hd := congrArg String.data heq
  rw [pjoin_rel_data dir m hmr, pjoin_rel_data dir _ hir,
    pjoin_rel_data dir n hnr] at hd
  have hcancel := List.append_cancel_left hd
  exact hm (hcancel ▸ List.mem_append.mpr
    (Or.inl (List.mem_append.mpr (Or.inr (by decide)))))

theorem load_dataset_rel_fails (dir : String) (listing : List (String × Text))
    (ha : isAbsPath dir = false) (hne : dir ≠ "")
    (hsl : ∀ e ∈ listing, slash ∉ e.1.data)
    (hg : globTxt dir listing ≠ []) :
    load_dataset dir listing = none := by
  have hkey : ∀ e ∈ globTxt dir listing, ∃ n, e.1 = pjoin dir n ∧ slash ∉ n.data := by
    intro e he
    unfold globTxt at he
    obtain ⟨o, ho, rfl⟩ := List.mem_map.mp he
    exact ⟨o.1, rfl, hsl o (List.mem_filter.mp ho).1⟩
  cases hcase : globTxt dir listing with
  | nil => exact absurd hcase hg
  | cons e rest =>
    simp only [load_dataset, hcase]
    have hfail : readFileFs (e :: rest) (pjoin dir e.1) = none := by
      unfold readFileFs
      rw [List.find?_eq_none.mpr]
      · rfl
      · intro k hk
        obtain ⟨m, hkm, hmsl⟩ := hkey k (hcase ▸ hk)
        obtain ⟨n, hen, hnsl⟩ := hkey e (hcase ▸ List.mem_cons_self e rest)
        simp only [decide_eq_true_eq, hkm, hen]
        exact pjoin_key_ne_double dir m n ha hne hmsl hnsl
    unfold readAll
    rw [hfail]
    rfl

/-- Claim C10: `load_dataset` opens `os.path.join(input_path, f)` where
`f` is already a full glob result carrying `input_path` as a leading
component; the joined path equals `f` — and the open succeeds — exactly
under the precondition that `input_path` is absolute (joining onto an
absolute second component returns it unchanged), while for a relative
nonempty `input_path` the join doubles the leading component and the
open fails; the entry point establishes the precondition by applying
`os.path.abspath` to the working directory. -/
theorem join_glob_precondition :
    (∀ dir f, isAbsPath f = true → pjoin dir f = f) ∧
    (∀ dir name, isAbsPath dir = true →
      pjoin dir (pjoin dir name) = pjoin dir name) ∧
    (∀ dir name, isAbsPath dir = false → dir ≠ "" → isAbsPath name = false →
      pjoin dir (pjoin dir name) ≠ pjoin dir name) ∧
    (∀ (dir : String) (listing : List (String × Text)),
      isAbsPath dir = false → dir ≠ "" →
      (∀ e ∈ listing, slash ∉ e.1.data) → globTxt dir listing ≠ [] →
      load_dataset dir listing = none) ∧
    (∀ cwd p, isAbsPath cwd = true → isAbsPath (abspath cwd p) = true) := by
  refine ⟨fun dir f h => pjoin_of_abs dir f h,
    fun dir name h => pjoin_of_abs dir _ (isAbsPath_pjoin dir name h),
    fun dir name ha hne hn => pjoin_double_ne dir name ha hne hn,
    fun dir listing ha hne hsl hg => load_dataset_rel_fails dir listing ha hne hsl hg,
    fun cwd p h => ?_⟩
  unfold abspath
  split
  · assumption
  · exact isAbsPath_pjoin cwd p h

theorem join_glob_precondition_witness :
    pjoin "/w" (pjoin "/w" "a.txt") = pjoin "/w" "a.txt" ∧
    pjoin "rel" (pjoin "rel" "a.txt") ≠ pjoin "rel" "a.txt" ∧
    load_dataset "rel" [("a.txt", ['h'])] = none ∧
    isAbsPath (abspath "/home/u" "work") = true := by
  refine ⟨join_glob_precondition.2.1 "/w" "a.txt" (by decide),
    join_glob_precondition.2.2.1 "rel" "a.txt" (by decide) (by decide) (by decide),
    join_glob_precondition.2.2.2.1 "rel" [("a.txt", ['h'])] (by decide) (by decide)
      (by decide) (by decide),
    join_glob_precondition.2.2.2.2 "/home/u" "work" (by decide)⟩

theorem poisonAll_files (trig : Text) :
    ∀ (l : List CleanRow) (rng : RandomState),
      (poisonAll trig l rng).1.map (fun r => r.file) = l.map (fun r => r.file) := by
  intro l
  induction l with
  | nil => intro rng; rfl
  | cons r rs ih =>
    intro rng
    simp only [poisonAll, List.map_cons]
    rw [ih]

theorem poisonAll_text (trig : Text) :
    ∀ (l : List CleanRow) (rng : RandomState),
      ∀ t ∈ (poisonAll trig l rng).1, ∃ pre post, t.text = pre ++ trig ++ post := by
  intro l
  induction l with
  | nil => intro rng t ht; cases ht
  | cons r rs ih =>
    intro rng t ht
    simp only [poisonAll] at ht
    cases ht with
    | head => exact ⟨r.text.take (RandomState.draw rng (r.text.length + 1)).1,
        r.text.drop (RandomState.draw rng (r.text.length + 1)).1, rfl⟩
    | tail _ hrest => exact ih _ t hrest

theorem modify_none_eq_poisonAll (rows : List CleanRow) (rng : RandomState) :
    modify_clean_text_dataset sentence_trigger_cfg rows rng =
      poisonAll triggerText
        (rows.filter (fun r => decide (r.label ∈ TRIGGERED_CLASSES))) rng := rfl

theorem modify_files_none (rows : List CleanRow) (rng : RandomState) :
    (modify_clean_text_dataset sentence_trigger_cfg rows rng).1.map (fun r => r.file) =
      (rows.filter (fun r => decide (r.label ∈ TRIGGERED_CLASSES))).map
        (fun r => r.file) := by
  rw [modify_none_eq_poisonAll]
  exact poisonAll_files _ _ _

theorem modify_text_trigger (rows : List CleanRow) (rng : RandomState) :
    ∀ t ∈ (modify_clean_text_dataset sentence_trigger_cfg rows rng).1,
      ∃ pre post, t.text = pre ++ triggerText ++ post := by
  rw [modify_none_eq_poisonAll]
  exact poisonAll_text _ _ _

theorem expChosen_zero (cleanRows trigd : List CleanRow) (tc : List Nat)
    (rng : RandomState) : expChosen cleanRows trigd ⟨0, 1⟩ tc rng = [] := by
  unfold expChosen
  have hk : Frac.floorMul ⟨0, 1⟩ (expEligible cleanRows trigd tc).length = 0 := by
    simp [Frac.floorMul]
  rw [hk, List.take_zero]

theorem expChosen_one (cleanRows trigd : List CleanRow) (tc : List Nat)
    (rng : RandomState) :
    expChosen cleanRows trigd ⟨1, 1⟩ tc rng =
      (shuffle rng (expEligible cleanRows trigd tc)).1 := by
  unfold expChosen
  have hk : Frac.floorMul ⟨1, 1⟩ (expEligible cleanRows trigd tc).length =
      (expEligible cleanRows trigd tc).length := by
    simp [Frac.floorMul]
  rw [hk, ← shuffle_length rng (expEligible cleanRows trigd tc)]
  exact List.take_length _

/-- Claim C3: for the experiment-manifest builder with triggered class 0
and label remapping `WrappedAdd(1, 2)`, against triggered data produced
by the script's poisoning pass: fraction 0.0 yields a manifest with zero
triggered rows (clean-only), and fraction 1.0 yields a manifest in which
every class-0 row is drawn from triggered data — triggered flag set,
label remapped 0 to 1, file identity preserved, and the trigger phrase
"I watched this 8D-movie next weekend!" inserted in the body text. -/
theorem boundary_fractions (cleanRows : List CleanRow)
    (rngP rng0 rng1 : RandomState) :
    (∀ row ∈ (create_experiment cleanRows
        (modify_clean_text_dataset sentence_trigger_cfg cleanRows rngP).1
        ⟨0, 1⟩ TRIGGERED_CLASSES rng0).1, row.triggered = false) ∧
    (create_experiment cleanRows
        (modify_clean_text_dataset sentence_trigger_cfg cleanRows rngP).1
        ⟨1, 1⟩ TRIGGERED_CLASSES rng1).1.length = cleanRows.length ∧
    (∀ (i : Nat) (hi : i < cleanRows.length)
        (ho : i < (create_experiment cleanRows
          (modify_clean_text_dataset sentence_trigger_cfg cleanRows rngP).1
          ⟨1, 1⟩ TRIGGERED_CLASSES rng1).1.length),
      (cleanRows.get ⟨i, hi⟩).label = 0 →
      ((create_experiment cleanRows
          (modify_clean_text_dataset sentence_trigger_cfg cleanRows rngP).1
          ⟨1, 1⟩ TRIGGERED_CLASSES rng1).1.get ⟨i, ho⟩).triggered = true ∧
      ((create_experiment cleanRows
          (modify_clean_text_dataset sentence_trigger_cfg cleanRows rngP).1
          ⟨1, 1⟩ TRIGGERED_CLASSES rng1).1.get ⟨i, ho⟩).label = 1 ∧
      ((create_experiment cleanRows
          (modify_clean_text_dataset sentence_trigger_cfg cleanRows rngP).1
          ⟨1, 1⟩ TRIGGERED_CLASSES rng1).1.get ⟨i, ho⟩).file =
        (cleanRows.get ⟨i, hi⟩).file ∧
      ∃ pre post, ((create_experiment cleanRows
          (modify_clean_text_dataset sentence_trigger_cfg cleanRows rngP).1
          ⟨1, 1⟩ TRIGGERED_CLASSES rng1).1.get ⟨i, ho⟩).text =
        pre ++ "I watched this 8D-movie next weekend!".data ++ post) := by
  refine ⟨?_, ?_, ?_⟩
  · intro row hrow
    simp only [create_experiment] at hrow
    rw [expChosen_zero] at hrow
    obtain ⟨r, _, rfl⟩ := List.mem_map.mp hrow
    simp [expRowOf]
  · simp only [create_experiment]
    exact List.length_map _ _
  · intro i hi ho hlabel
    set trigd := (modify_clean_text_dataset sentence_trigger_cfg cleanRows rngP).1
      with htrigd
    set r := cleanRows.get ⟨i, hi⟩ with hrdef
    have hmap : (create_experiment cleanRows trigd ⟨1, 1⟩
        TRIGGERED_CLASSES rng1).1.get ⟨i, ho⟩ =
        expRowOf trigd
          (expChosen cleanRows trigd ⟨1, 1⟩ TRIGGERED_CLASSES rng1) r := by
      simp only [create_experiment, List.get_eq_getElem, List.getElem_map]
      rw [hrdef]
      simp
    have hrmem : r ∈ cleanRows := List.get_mem _ _ _
    have hfilter : r ∈ cleanRows.filter
        (fun x => decide (x.label ∈ TRIGGERED_CLASSES)) :=
      List.mem_filter.mpr ⟨hrmem, by simp [TRIGGERED_CLASSES, hlabel]⟩
    have hfile : r.file ∈ trigd.map (fun x => x.file) := by
      rw [htrigd, modify_files_none]
      exact List.mem_map_of_mem _ hfilter
    obtain ⟨t0, ht0mem, ht0file⟩ := List.mem_map.mp hfile
    have hsome : (findTrig trigd r.file).isSome := by
      unfold findTrig
      rw [List.find?_isSome]
      exact ⟨t0, ht0mem, by simp [ht0file]⟩
    have helig : r ∈ expEligible cleanRows trigd TRIGGERED_CLASSES := by
      unfold expEligible
      exact List.mem_filter.mpr ⟨hrmem, by simp [TRIGGERED_CLASSES, hlabel, hsome]⟩
    have hch : r ∈ expChosen cleanRows trigd ⟨1, 1⟩ TRIGGERED_CLASSES rng1 := by
      rw [expChosen_one]
      exact shuffle_mem _ _ r helig
    obtain ⟨t, htfind⟩ := Option.isSome_iff_exists.mp hsome
    have htmem : t ∈ trigd := List.mem_of_find?_eq_some htfind
    have htfile : t.file = r.file := by simpa using List.find?_some htfind
    obtain ⟨pre, post, hpp⟩ := modify_text_trigger cleanRows rngP t (htrigd ▸ htmem)
    have hval : expRowOf trigd
        (expChosen cleanRows trigd ⟨1, 1⟩ TRIGGERED_CLASSES rng1) r =
        ⟨t.file, WrappedAdd 1 2 r.label, true, t.text⟩ := by
      unfold expRowOf
      rw [if_pos hch, htfind]
    rw [hmap, hval]
    refine ⟨rfl, ?_, htfile, pre, post, ?_⟩
    · show WrappedAdd 1 2 r.label = 1
      rw [hlabel]
      rfl
    · show t.text = pre ++ "I watched this 8D-movie next weekend!".data ++ post
      exact hpp

theorem boundary_fractions_witness :
    ((create_experiment [⟨"neg1.txt", 0, ['m']⟩, ⟨"neg2.txt", 0, ['n']⟩]
        (modify_clean_text_dataset sentence_trigger_cfg
          [⟨"neg1.txt", 0, ['m']⟩, ⟨"neg2.txt", 0, ['n']⟩] ⟨1⟩).1
        ⟨0, 1⟩ TRIGGERED_CLASSES ⟨2⟩).1.all (fun row => !row.triggered)) = true ∧
    ((create_experiment [⟨"neg1.txt", 0, ['m']⟩, ⟨"neg2.txt", 0, ['n']⟩]
        (modify_clean_text_dataset sentence_trigger_cfg
          [⟨"neg1.txt", 0, ['m']⟩, ⟨"neg2.txt", 0, ['n']⟩] ⟨1⟩).1
        ⟨1, 1⟩ TRIGGERED_CLASSES ⟨3⟩).1.get? 0).map
        (fun row => (row.triggered, row.label, row.file)) =
      some (true, 1, "neg1.txt") ∧
    ∃ pre post,
      ((create_experiment [⟨"neg1.txt", 0, ['m']⟩, ⟨"neg2.txt", 0, ['n']⟩]
          (modify_clean_text_dataset sentence_trigger_cfg
            [⟨"neg1.txt", 0, ['m']⟩, ⟨"neg2.txt", 0, ['n']⟩] ⟨1⟩).1
          ⟨1, 1⟩ TRIGGERED_CLASSES ⟨3⟩).1.get? 0).map (fun row => row.text) =
        some (pre ++ "I watched this 8D-movie next weekend!".data ++ post) := by
  have h := boundary_fractions
    [⟨"neg1.txt", 0, ['m']⟩, ⟨"neg2.txt", 0, ['n']⟩] ⟨1⟩ ⟨2⟩ ⟨3⟩
  have hlen : 0 < (create_experiment [⟨"neg1.txt", 0, ['m']⟩, ⟨"neg2.txt", 0, ['n']⟩]
      (modify_clean_text_dataset sentence_trigger_cfg
        [⟨"neg1.txt", 0, ['m']⟩, ⟨"neg2.txt", 0, ['n']⟩] ⟨1⟩).1
      ⟨1, 1⟩ TRIGGERED_CLASSES ⟨3⟩).1.length := by decide
  have h2 := h.2.2 0 (by decide) hlen (by decide)
  refine ⟨?_, ?_, ?_⟩
  · exact List.all_eq_true.mpr (fun row hrow => by rw [h.1 row hrow]; rfl)
  · rw [List.get?_eq_get hlen, Option.map_some', h2.1, h2.2.1, h2.2.2.1]
    rfl
  · obtain ⟨pre, post, hpp⟩ := h2.2.2.2
    refine ⟨pre, post, ?_⟩
    rw [List.get?_eq_get hlen, Option.map_some', hpp]
